import Mathlib

/-!
# Verification of the Skill Learning Coach server core

A shallow embedding of the goal/milestone/task data model and the lifecycle
operations of `src/server.py`, together with theorems about the operations.

Conventions of the embedding:

* The entity store is a `DB` value holding the persisted rows of each table
  plus the autoincrement counters.  Each operation is a pure function from a
  `DB` (the committed state at the start of the call) to a result paired with
  the `DB` after the call's session is closed.  An intermediate `commit`
  inside an operation is modelled by threading the committed state explicitly:
  whatever was committed before an exception survives, uncommitted in-session
  changes are discarded when the session is closed or rolled back.
* Python's `json.loads` applied to the textual `roadmap` / `coach_notes`
  arguments is external library code; its outcome is modelled as an
  `Option Json` argument (`none` = `json.JSONDecodeError`, `some v` = the
  decoded structured value `v`).
* Timestamps (`datetime.utcnow()`) are modelled as a `Nat` parameter `now`
  supplied to each operation that reads the clock.
* Errors are the `{error: message}` results of the tools, modelled as
  `Except String` with the exact message strings of `server.py`; messages of
  Python runtime exceptions (`TypeError`/`AttributeError`) are modelled by
  fixed descriptive strings.
-/

namespace SkillServer

/-- JSON-like structured values, as produced by `json.loads`. -/
inductive Json where
  | null
  | bool (b : Bool)
  | num (n : Int)
  | str (s : String)
  | arr (items : List Json)
  | obj (fields : List (String × Json))

/-- Structural (Boolean) equality on `Json` values. -/
def Json.beq : Json → Json → Bool
  | .null, .null => true
  | .bool a, .bool b => a == b
  | .num a, .num b => a == b
  | .str a, .str b => a == b
  | .arr xs, .arr ys => beqList xs ys
  | .obj xs, .obj ys => beqFields xs ys
  | _, _ => false
where
  beqList : List Json → List Json → Bool
    | [], [] => true
    | x :: xs, y :: ys => x.beq y && beqList xs ys
    | _, _ => false
  beqFields : List (String × Json) → List (String × Json) → Bool
    | [], [] => true
    | (k, v) :: xs, (l, w) :: ys => k == l && v.beq w && beqFields xs ys
    | _, _ => false

instance : BEq Json := ⟨Json.beq⟩

/-- Is this JSON value an object (a Python `dict`)? -/
def Json.isObj : Json → Bool
  | .obj _ => true
  | _ => false

/-- Field lookup inside a JSON object; `none` when the value is not an
object or the key is absent. -/
def Json.objLookup : Json → String → Option Json
  | .obj fields, key => fields.lookup key
  | _, _ => none

/-- Python attribute-style `entry.get(key, default)` as used on each roadmap
entry in `create_goal`: succeeds only when the value is a `dict`
(otherwise Python raises `AttributeError`, modelled as the error case). -/
def pyGetAttr (j : Json) (key : String) (dflt : Json) : Except String Json :=
  match j with
  | .obj fields =>
    .ok (match fields.lookup key with
         | some v => v
         | none => dflt)
  | _ => .error "AttributeError: object has no attribute get"

/-- Python `enumerate(x)` over a decoded JSON value, as used on the decoded
roadmap in `create_goal`: lists enumerate their items, strings their
characters, dicts their keys; every other value raises `TypeError`
(modelled as the error case). -/
def pyEnumerate (j : Json) : Except String (List Json) :=
  match j with
  | .arr items => .ok items
  | .str s => .ok (s.toList.map fun c => Json.str (String.mk [c]))
  | .obj fields => .ok (fields.map fun f => Json.str f.fst)
  | _ => .error "TypeError: object is not iterable"

/-- Modelled from the spec: the `User` entity of `backend/models.py` (the
models module is imported by `server.py` but is not part of the given
sources).  Fields follow the spec's data model: unique `id`, `username`,
`email`, optional `learning_style`, `created_at` set once at creation. -/
structure User where
  id : Nat
  username : String
  email : String
  learning_style : Option String
  created_at : Nat
deriving Repr, DecidableEq

/-- Modelled from the spec: the `Goal` entity — unique `id`, owning
`user_id`, `skill_name`, `timeline` in days, optional opaque
`coach_notes`. -/
structure Goal where
  id : Nat
  user_id : Nat
  skill_name : String
  timeline : Int
  coach_notes : Option Json

/-- Modelled from the spec: the `Milestone` entity — unique `id`, owning
`goal_id`, `title`, `description` (stored as the structured values taken
from the roadmap entry, which Python stores as given), 1-based `order`,
`is_complete` defaulting to `false`, nullable `completed_at`. -/
structure Milestone where
  id : Nat
  goal_id : Nat
  title : Json
  description : Json
  order : Nat
  is_complete : Bool
  completed_at : Option Nat

/-- The `TaskStatus` enumeration of the models module. -/
inductive TaskStatus where
  | INCOMPLETE
  | IN_PROGRESS
  | COMPLETE
deriving Repr, DecidableEq

/-- Modelled from the spec: the `Task` entity — unique `id`, owning
`goal_id`, nullable `milestone_id`, `title`, `description`, `status`,
`created_at` set at creation, nullable `completed_at`. -/
structure Task where
  id : Nat
  goal_id : Nat
  milestone_id : Option Nat
  title : String
  description : String
  status : TaskStatus
  created_at : Nat
  completed_at : Option Nat
deriving Repr, DecidableEq

/-- The `VerificationType` enumeration; only `"text"` is used by the
server. -/
inductive VerificationType where
  | text
deriving Repr, DecidableEq

/-- Modelled from the spec: the `Verification` entity — unique `id`, owning
`task_id`, a `verification_type`, and the structured `content` and
`requirements` payloads (which `server.py` serializes with `json.dumps`
before storing; the embedding keeps the structured value). -/
structure Verification where
  id : Nat
  task_id : Nat
  verification_type : VerificationType
  content : Json
  requirements : Json

/-- The persisted state of the entity store: the rows of each table plus the
autoincrement counters for server-assigned ids. -/
structure DB where
  users : List User
  goals : List Goal
  milestones : List Milestone
  tasks : List Task
  verifications : List Verification
  next_user_id : Nat
  next_goal_id : Nat
  next_milestone_id : Nat
  next_task_id : Nat
  next_verification_id : Nat

/-- The empty store. -/
def DB.empty : DB := ⟨[], [], [], [], [], 1, 1, 1, 1, 1⟩

-- ========== USER TOOLS ==========

/-- The user projection returned by `create_user` / `update_user`. -/
structure UserProjection where
  user_id : Nat
  username : String
  email : String
  learning_style : Option String
  created_at : Nat
deriving Repr, DecidableEq

/-- Embedding of `create_user` from `server.py`: reject when a user with the same username
or the same email already exists, otherwise insert and commit a new user
and return its projection. -/
def create_user (db : DB) (username email : String)
    (learning_style : Option String) (now : Nat) :
    Except String UserProjection × DB :=
  match db.users.find? (fun u => u.username == username || u.email == email) with
  | some _ => (.error "Username or email already exists", db)
  | none =>
    let u : User := ⟨db.next_user_id, username, email, learning_style, now⟩
    let db' : DB := { db with
      users := db.users ++ [u],
      next_user_id := db.next_user_id + 1 }
    (.ok ⟨u.id, u.username, u.email, u.learning_style, u.created_at⟩, db')

/-- Embedding of `update_user` from `server.py`: overwrite the learning style of an
existing user. -/
def update_user (db : DB) (user_id : Nat) (learning_style : String) :
    Except String UserProjection × DB :=
  match db.users.find? (fun u => u.id == user_id) with
  | none => (.error "User not found", db)
  | some u =>
    let u' : User := { u with learning_style := some learning_style }
    let db' : DB := { db with
      users := db.users.map (fun x => if x.id == user_id then u' else x) }
    (.ok ⟨u'.id, u'.username, u'.email, u'.learning_style, u'.created_at⟩, db')

-- ========== GOAL TOOLS ==========

/-- The summary returned by a successful `create_goal`. -/
structure GoalSummary where
  goal_id : Nat
  skill_name : String
  timeline : Int
  milestones_count : Nat

/-- The milestone-creation loop of `create_goal`:
`for idx, milestone_input in enumerate(roadmap_list)` builds one `Milestone`
per entry with `title = entry.get("title", "Milestone {idx+1}")`,
`description = entry.get("description", "")` and `order = idx + 1`.
`idx` is the running 0-based index and `nid` the next milestone id; a
Python exception raised by `.get` on a non-dict entry is the error case. -/
def buildMilestones (goal_id : Nat) : Nat → Nat → List Json → Except String (List Milestone)
  | _, _, [] => .ok []
  | idx, nid, e :: es =>
    match pyGetAttr e "title" (.str ("Milestone " ++ toString (idx + 1))) with
    | .error msg => .error msg
    | .ok t =>
      match pyGetAttr e "description" (.str "") with
      | .error msg => .error msg
      | .ok d =>
        match buildMilestones goal_id (idx + 1) (nid + 1) es with
        | .error msg => .error msg
        | .ok rest => .ok (⟨nid, goal_id, t, d, idx + 1, false, none⟩ :: rest)

/-- Embedding of `create_goal` from `server.py`.  `roadmap` and `coach_notes` carry the
outcome of `json.loads` on the textual arguments (`none` = decode error;
for `coach_notes` the outer `Option` is presence of the argument).
Faithful to the source's control flow: the user check, the roadmap decode
check and the coach-notes decode check happen before any write; the goal
is then inserted and **committed** before the roadmap is iterated, so a
failure while iterating (a decoded roadmap that is not a list of dicts)
leaves the committed goal in the store while the uncommitted milestones
are rolled back. -/
def create_goal (db : DB) (user_id : Nat) (skill_name : String) (timeline : Int)
    (roadmap : Option Json) (coach_notes : Option (Option Json)) :
    Except String GoalSummary × DB :=
  match db.users.find? (fun u => u.id == user_id) with
  | none => (.error "User not found", db)
  | some _ =>
    match roadmap with
    | none => (.error "Invalid roadmap JSON format", db)
    | some roadmap_list =>
      match coach_notes with
      | some none => (.error "Invalid coach_notes JSON format", db)
      | _ =>
        let notes : Option Json :=
          match coach_notes with
          | some (some j) => some j
          | _ => none
        let goal : Goal := ⟨db.next_goal_id, user_id, skill_name, timeline, notes⟩
        -- first commit: the goal row is persisted from here on
        let db1 : DB := { db with
          goals := db.goals ++ [goal],
          next_goal_id := db.next_goal_id + 1 }
        match pyEnumerate roadmap_list with
        | .error e => (.error e, db1)
        | .ok entries =>
          match buildMilestones goal.id 0 db1.next_milestone_id entries with
          | .error e => (.error e, db1)
          | .ok ms =>
            let db2 : DB := { db1 with
              milestones := db1.milestones ++ ms,
              next_milestone_id := db1.next_milestone_id + ms.length }
            (.ok ⟨goal.id, skill_name, timeline, ms.length⟩, db2)

/-- The per-task shape of both task lists of `get_context`. -/
structure TaskView where
  task_id : Nat
  title : String
  description : String
  status : TaskStatus
  completed_at : Option Nat
deriving Repr, DecidableEq

/-- Project a task row to the shape returned by `get_context`. -/
def taskView (t : Task) : TaskView :=
  ⟨t.id, t.title, t.description, t.status, t.completed_at⟩

/-- The per-milestone shape of the `roadmap` list of `get_context`. -/
structure MilestoneView where
  milestone_id : Nat
  title : Json
  description : Json
  order : Nat
  is_complete : Bool

/-- Project a milestone row to the shape returned by `get_context`. -/
def milestoneView (m : Milestone) : MilestoneView :=
  ⟨m.id, m.title, m.description, m.order, m.is_complete⟩

/-- The snapshot returned by `get_context`. -/
structure ContextSnapshot where
  goal_id : Nat
  skill_name : String
  learning_style : Option String
  last_completed_tasks : List TaskView
  current_incomplete_tasks : List TaskView
  roadmap : List MilestoneView
  coach_notes : Option Json

/-- Sort key for `ORDER BY completed_at DESC`: a `NULL` timestamp sorts
below every real one (it comes last under descending order). -/
def tsVal : Option Nat → Int
  | none => -1
  | some n => Int.ofNat n

/-- Whether `a` may precede `b` under `ORDER BY completed_at DESC`. -/
def completedDesc (a b : Task) : Bool := tsVal b.completed_at ≤ tsVal a.completed_at

/-- Whether `a` may precede `b` under `ORDER BY created_at ASC`. -/
def createdAsc (a b : Task) : Bool := a.created_at ≤ b.created_at

/-- Whether `a` may precede `b` under `ORDER BY "order"` (ascending). -/
def orderAsc (a b : Milestone) : Bool := a.order ≤ b.order

/-- Embedding of `get_context` from `server.py`: a read-only aggregation returning the
last 5 completed tasks (ordered by `completed_at` descending), all
incomplete/in-progress tasks (ordered by `created_at` ascending), the full
milestone roadmap (ordered by `order`), the owning user's learning style
(null when the user is missing) and the verbatim coach notes. -/
def get_context (db : DB) (goal_id : Nat) : Except String ContextSnapshot × DB :=
  match db.goals.find? (fun g => g.id == goal_id) with
  | none => (.error "Goal not found", db)
  | some goal =>
    let completed := db.tasks.filter
      (fun t => t.goal_id == goal_id && t.status == TaskStatus.COMPLETE)
    let last_completed := (completed.mergeSort completedDesc).take 5
    let incomplete := db.tasks.filter
      (fun t => t.goal_id == goal_id &&
        (t.status == TaskStatus.INCOMPLETE || t.status == TaskStatus.IN_PROGRESS))
    let current := incomplete.mergeSort createdAsc
    let ms := (db.milestones.filter (fun m => m.goal_id == goal_id)).mergeSort orderAsc
    let user := db.users.find? (fun u => u.id == goal.user_id)
    (.ok ⟨goal.id, goal.skill_name,
          match user with
          | some u => u.learning_style
          | none => none,
          last_completed.map taskView,
          current.map taskView,
          ms.map milestoneView,
          goal.coach_notes⟩, db)

/-- The projection returned by a successful `update_goal`. -/
structure GoalProjection where
  goal_id : Nat
  skill_name : String
  timeline : Int
  coach_notes : Option Json

/-- Embedding of `update_goal` from `server.py`: partial update of an existing goal.  The
source assigns `skill_name` and `timeline` to the in-session object before
attempting to decode `coach_notes`; when that decode fails it returns the
error and closes the session without committing, so those in-session
assignments are discarded and the store is unchanged. -/
def update_goal (db : DB) (goal_id : Nat) (skill_name : Option String)
    (timeline : Option Int) (coach_notes : Option (Option Json)) :
    Except String GoalProjection × DB :=
  match db.goals.find? (fun g => g.id == goal_id) with
  | none => (.error "Goal not found", db)
  | some goal =>
    let g1 := match skill_name with
      | some s => { goal with skill_name := s }
      | none => goal
    let g2 := match timeline with
      | some t => { g1 with timeline := t }
      | none => g1
    match coach_notes with
    | some none =>
      -- decode failure: return without commit; the session-local updates
      -- to skill_name / timeline are discarded when the session closes
      (.error "Invalid coach_notes JSON format", db)
    | some (some j) =>
      let g3 := { g2 with coach_notes := some j }
      let db' : DB := { db with
        goals := db.goals.map (fun g => if g.id == goal_id then g3 else g) }
      (.ok ⟨g3.id, g3.skill_name, g3.timeline, g3.coach_notes⟩, db')
    | none =>
      let db' : DB := { db with
        goals := db.goals.map (fun g => if g.id == goal_id then g2 else g) }
      (.ok ⟨g2.id, g2.skill_name, g2.timeline, g2.coach_notes⟩, db')

/-- The projection returned by a successful `update_milestone`. -/
structure MilestoneProjection where
  milestone_id : Nat
  title : Json
  description : Json
  order : Nat
  is_complete : Bool

/-- Embedding of `update_milestone` from `server.py`: partial update of an existing
milestone; whenever `is_complete` is supplied, `completed_at` is set to
the current time when the value is true and cleared to null when it is
false, regardless of the previous value. -/
def update_milestone (db : DB) (milestone_id : Nat) (title : Option String)
    (description : Option String) (is_complete : Option Bool) (now : Nat) :
    Except String MilestoneProjection × DB :=
  match db.milestones.find? (fun m => m.id == milestone_id) with
  | none => (.error "Milestone not found", db)
  | some m =>
    let m1 := match title with
      | some t => { m with title := Json.str t }
      | none => m
    let m2 := match description with
      | some d => { m1 with description := Json.str d }
      | none => m1
    let m3 := match is_complete with
      | some b =>
        { m2 with is_complete := b, completed_at := if b then some now else none }
      | none => m2
    let db' : DB := { db with
      milestones := db.milestones.map (fun x => if x.id == milestone_id then m3 else x) }
    (.ok ⟨m3.id, m3.title, m3.description, m3.order, m3.is_complete⟩, db')

-- ========== TASK TOOLS ==========

/-- The milestone query of `create_task`: the goal's incomplete milestones
ordered by `order`, first row or `NULL`. -/
def currentMilestone (db : DB) (goal_id : Nat) : Option Milestone :=
  ((db.milestones.filter
      (fun m => m.goal_id == goal_id && m.is_complete == false)).mergeSort
    orderAsc).head?

/-- The fixed verification `content` payload built in `create_task`. -/
def verificationContent (task_title task_description : String) : Json :=
  .obj [("prompt", .str ("Please complete the following task: " ++ task_title)),
        ("guidelines", .str task_description)]

/-- The fixed verification `requirements` payload built in `create_task`. -/
def verificationRequirements : Json :=
  .obj [("completion_criteria",
         .str "Task should be completed according to the description")]

/-- The response of a successful `create_task`. -/
structure TaskCreateResponse where
  task_id : Nat
  task_title : String
  task_description : String
  verification_type : VerificationType
  verification_content : Json
  milestone_id : Option Nat

/-- Embedding of `create_task` from `server.py`: attach the new task to the goal's first
incomplete milestone (by `order`), create it with status INCOMPLETE, then
synchronously create the deterministic text verification for it. -/
def create_task (db : DB) (goal_id : Nat) (task_title task_description : String)
    (now : Nat) : Except String TaskCreateResponse × DB :=
  match db.goals.find? (fun g => g.id == goal_id) with
  | none => (.error "Goal not found", db)
  | some _ =>
    let cm := currentMilestone db goal_id
    let task : Task := ⟨db.next_task_id, goal_id, cm.map (fun m => m.id),
                        task_title, task_description, TaskStatus.INCOMPLETE, now, none⟩
    let db1 : DB := { db with
      tasks := db.tasks ++ [task],
      next_task_id := db.next_task_id + 1 }
    let verification : Verification := ⟨db1.next_verification_id, task.id,
      VerificationType.text,
      verificationContent task_title task_description,
      verificationRequirements⟩
    let db2 : DB := { db1 with
      verifications := db1.verifications ++ [verification],
      next_verification_id := db1.next_verification_id + 1 }
    (.ok ⟨task.id, task.title, task.description, VerificationType.text,
          verificationContent task_title task_description,
          cm.map (fun m => m.id)⟩, db2)

-- ========== AUXILIARY DEFINITIONS FOR THE STATEMENTS ==========

/-- The milestone list produced by the creation loop for a well-formed
roadmap, starting at running index `idx` and next id `nid` (the error-free
reading of `buildMilestones`, used to state its refinement). -/
def specMilestonesFrom (gid : Nat) : Nat → Nat → List Json → List Milestone
  | _, _, [] => []
  | idx, nid, e :: es =>
    ⟨nid, gid,
     (e.objLookup "title").getD (Json.str ("Milestone " ++ toString (idx + 1))),
     (e.objLookup "description").getD (Json.str ""),
     idx + 1, false, none⟩ :: specMilestonesFrom gid (idx + 1) (nid + 1) es

-- ========== CONCRETE SAMPLE STORE (for witnesses and counterexamples) ==========

/-- A sample user. -/
def wUser : User := ⟨1, "alice", "alice@x.com", none, 0⟩

/-- A store holding just the sample user. -/
def wUserDB : DB := ⟨[wUser], [], [], [], [], 2, 1, 1, 1, 1⟩

/-- A sample goal owned by the sample user. -/
def wGoal : Goal := ⟨1, 1, "Guitar", 60, none⟩

/-- Sample milestones: the first complete, the second and third not. -/
def wMilestone1 : Milestone := ⟨1, 1, Json.str "Chords", Json.str "", 1, true, some 5⟩

/-- Second sample milestone (incomplete, order 2). -/
def wMilestone2 : Milestone := ⟨2, 1, Json.str "Songs", Json.str "", 2, false, none⟩

/-- Third sample milestone (incomplete, order 3). -/
def wMilestone3 : Milestone := ⟨3, 1, Json.str "Perform", Json.str "", 3, false, none⟩

/-- Sample completed task number `i` (completed at time `10 + i`). -/
def wDoneTask (i : Nat) : Task :=
  ⟨i, 1, some 2, "done", "", TaskStatus.COMPLETE, i, some (10 + i)⟩

/-- A sample task still to do. -/
def wTodoTask : Task := ⟨8, 1, some 2, "todo", "", TaskStatus.INCOMPLETE, 8, none⟩

/-- A sample task in progress. -/
def wActiveTask : Task := ⟨9, 1, some 2, "active", "", TaskStatus.IN_PROGRESS, 9, none⟩

/-- A populated sample store: one user, one goal, three milestones, seven
completed tasks and two open ones. -/
def wDB : DB :=
  ⟨[wUser], [wGoal], [wMilestone1, wMilestone2, wMilestone3],
   [wDoneTask 1, wDoneTask 2, wDoneTask 3, wDoneTask 4, wDoneTask 5,
    wDoneTask 6, wDoneTask 7, wTodoTask, wActiveTask],
   [], 2, 2, 4, 10, 1⟩

-- ========== THEOREMS ==========

/-- C7: whenever `is_complete` is explicitly supplied to `update_milestone`
on an existing milestone, the stored milestone afterwards has
`completed_at = now` when the supplied value is true and `completed_at =
null` when it is false — unconditionally, whatever the milestone's prior
`is_complete` and `completed_at` were. -/
theorem update_milestone_sets_completed_at
    (db : DB) (mid : Nat) (t d : Option String) (b : Bool) (now : Nat)
    (m : Milestone) (hm : db.milestones.find? (fun x => x.id == mid) = some m) :
    ∀ x ∈ (update_milestone db mid t d (some b) now).2.milestones, x.id = mid →
      x.is_complete = b ∧ x.completed_at = (if b then some now else none) := by
  intro x hx hxid
  simp only [update_milestone, hm] at hx
  rcases List.mem_map.mp hx with ⟨y, _, hxy⟩
  by_cases hid : (y.id == mid) = true
  · rw [if_pos hid] at hxy
    subst hxy
    exact ⟨rfl, rfl⟩
  · rw [if_neg hid] at hxy
    subst hxy
    exact absurd (beq_iff_eq.mpr hxid) hid

/-- Witness for C7: clearing `is_complete` on the already-complete sample
milestone resets `completed_at` to null. -/
theorem update_milestone_sets_completed_at_witness :
    (wDB.milestones.find? (fun x => x.id == 1) = some wMilestone1) ∧
    ∀ x ∈ (update_milestone wDB 1 none none (some false) 99).2.milestones,
      x.id = 1 → x.is_complete = false ∧ x.completed_at = (if false then some 99 else none) :=
  ⟨rfl, update_milestone_sets_completed_at wDB 1 none none false 99 wMilestone1 rfl⟩

/-- C10: calling `update_goal` on an existing goal with any `skill_name` /
`timeline` arguments together with a `coach_notes` value that fails to
decode returns the validation error and leaves the whole store unchanged:
the in-session assignments made before the decode are discarded because the
session is closed without commit. -/
theorem update_goal_bad_notes_unchanged (db : DB) (gid : Nat)
    (sn : Option String) (tl : Option Int)
    (hg : (db.goals.find? (fun g => g.id == gid)).isSome = true) :
    update_goal db gid sn tl (some none) =
      (.error "Invalid coach_notes JSON format", db) := by
  rcases Option.isSome_iff_exists.mp hg with ⟨g, hgg⟩
  simp [update_goal, hgg]

/-- Witness for C10: on the sample store, supplying a new skill name and
timeline together with undecodable coach notes changes nothing. -/
theorem update_goal_bad_notes_unchanged_witness :
    ((wDB.goals.find? (fun g => g.id == 1)).isSome = true) ∧
    update_goal wDB 1 (some "Piano") (some 90) (some none) =
      (.error "Invalid coach_notes JSON format", wDB) :=
  ⟨rfl, update_goal_bad_notes_unchanged wDB 1 (some "Piano") (some 90) rfl⟩

/-- C8: `create_user` fails with the conflict error — leaving the store
unchanged — exactly when some existing user has the same username or the
same email (exact string match); when neither field is in use it persists
a new user with the server-assigned id and `created_at` and returns the
full projection. -/
theorem create_user_conflict_iff (db : DB) (username email : String)
    (ls : Option String) (now : Nat) :
    ((∃ u ∈ db.users, u.username = username ∨ u.email = email) →
       create_user db username email ls now =
         (.error "Username or email already exists", db)) ∧
    ((∀ u ∈ db.users, u.username ≠ username ∧ u.email ≠ email) →
       create_user db username email ls now =
         (.ok ⟨db.next_user_id, username, email, ls, now⟩,
          { db with
            users := db.users ++ [⟨db.next_user_id, username, email, ls, now⟩],
            next_user_id := db.next_user_id + 1 })) := by
  constructor
  · rintro ⟨u, hu, hcase⟩
    have hsome : (db.users.find?
        (fun v => v.username == username || v.email == email)).isSome = true := by
      rw [List.find?_isSome]
      exact ⟨u, hu, by rcases hcase with h | h <;> simp [h]⟩
    rcases Option.isSome_iff_exists.mp hsome with ⟨v, hvv⟩
    simp [create_user, hvv]
  · intro hall
    have hnone : db.users.find?
        (fun v => v.username == username || v.email == email) = none := by
      rw [List.find?_eq_none]
      intro u hu
      have h := hall u hu
      simp [h.1, h.2]
    simp [create_user, hnone]

/-- Witness for C8: reusing the sample user's username conflicts and leaves
the store unchanged; a fresh username/email pair succeeds and persists. -/
theorem create_user_conflict_iff_witness :
    ((∃ u ∈ wUserDB.users, u.username = "alice" ∨ u.email = "nobody@x.com") ∧
       create_user wUserDB "alice" "nobody@x.com" none 9 =
         (.error "Username or email already exists", wUserDB)) ∧
    ((∀ u ∈ wUserDB.users, u.username ≠ "bob" ∧ u.email ≠ "bob@x.com") ∧
       create_user wUserDB "bob" "bob@x.com" none 9 =
         (.ok ⟨2, "bob", "bob@x.com", none, 9⟩,
          { wUserDB with
            users := wUserDB.users ++ [⟨2, "bob", "bob@x.com", none, 9⟩],
            next_user_id := 3 })) := by
  have hex : ∃ u ∈ wUserDB.users, u.username = "alice" ∨ u.email = "nobody@x.com" :=
    ⟨wUser, by simp [wUserDB], Or.inl rfl⟩
  have hall : ∀ u ∈ wUserDB.users, u.username ≠ "bob" ∧ u.email ≠ "bob@x.com" := by
    intro u hu
    simp only [wUserDB] at hu
    rcases List.mem_singleton.mp hu with rfl
    exact ⟨by decide, by decide⟩
  exact ⟨⟨hex, (create_user_conflict_iff wUserDB "alice" "nobody@x.com" none 9).1 hex⟩,
         ⟨hall, (create_user_conflict_iff wUserDB "bob" "bob@x.com" none 9).2 hall⟩⟩

/-- The head of a list that is pairwise sorted for a Boolean relation `le`
relates to every element: it is that element or `le` holds. -/
theorem head?_pairwise_rel {α : Type} {le : α → α → Bool} {l : List α} {a : α}
    (h : l.Pairwise (fun x y => le x y = true)) (ha : l.head? = some a) :
    ∀ b ∈ l, a = b ∨ le a b = true := by
  cases l with
  | nil => cases ha
  | cons x xs =>
    simp only [List.head?_cons, Option.some.injEq] at ha
    subst ha
    intro b hb
    rcases List.mem_cons.mp hb with rfl | hbx
    · exact Or.inl rfl
    · exact Or.inr ((List.pairwise_cons.mp h).1 b hbx)

/-- Transitivity of `orderAsc`. -/
theorem orderAsc_trans : ∀ a b c : Milestone,
    orderAsc a b = true → orderAsc b c = true → orderAsc a c = true := by
  intro a b c hab hbc
  simp only [orderAsc, decide_eq_true_eq] at *
  omega

/-- Totality of `orderAsc`. -/
theorem orderAsc_total : ∀ a b : Milestone, (orderAsc a b || orderAsc b a) = true := by
  intro a b
  simp only [orderAsc, Bool.or_eq_true, decide_eq_true_eq]
  omega

/-- C4: every successful `create_task` synchronously appends exactly one
verification for the newly created task (whose id is the new task id),
of type text, with the fixed prompt/guidelines content and the fixed
completion-criteria requirements; the verification content returned by two
successful calls with the same title and description is identical. -/
theorem create_task_verification_deterministic
    (db : DB) (gid : Nat) (tt td : String) (now : Nat)
    (hg : (db.goals.find? (fun g => g.id == gid)).isSome = true) :
    (create_task db gid tt td now).2.verifications =
      db.verifications ++
        [⟨db.next_verification_id, db.next_task_id, VerificationType.text,
          verificationContent tt td, verificationRequirements⟩] ∧
    verificationContent tt td =
      Json.obj [("prompt", Json.str ("Please complete the following task: " ++ tt)),
                ("guidelines", Json.str td)] ∧
    verificationRequirements =
      Json.obj [("completion_criteria",
                 Json.str "Task should be completed according to the description")] ∧
    (∀ (db' : DB) (gid' now' : Nat),
       (db'.goals.find? (fun g => g.id == gid')).isSome = true →
       ∀ r r', (create_task db gid tt td now).1 = .ok r →
         (create_task db' gid' tt td now').1 = .ok r' →
         r.verification_content = r'.verification_content) := by
  rcases Option.isSome_iff_exists.mp hg with ⟨g, hgg⟩
  refine ⟨by simp [create_task, hgg], rfl, rfl, ?_⟩
  intro db' gid' now' hg' r r' hr hr'
  rcases Option.isSome_iff_exists.mp hg' with ⟨g', hgg'⟩
  simp only [create_task, hgg] at hr
  simp only [create_task, hgg'] at hr'
  injection hr with hr
  injection hr' with hr'
  rw [← hr, ← hr']

/-- Witness for C4 on the sample store. -/
theorem create_task_verification_deterministic_witness :
    ((wDB.goals.find? (fun g => g.id == 1)).isSome = true) ∧
    (create_task wDB 1 "Learn Em" "Practice" 42).2.verifications =
      wDB.verifications ++
        [⟨1, 10, VerificationType.text,
          verificationContent "Learn Em" "Practice", verificationRequirements⟩] :=
  ⟨rfl, (create_task_verification_deterministic wDB 1 "Learn Em" "Practice" 42 rfl).1⟩

/-- C3: every successful `create_task` creates the task with status
INCOMPLETE, attaches it to `currentMilestone` (returning that resolved,
possibly null, milestone id), and `currentMilestone` is precisely the
goal's incomplete milestone of smallest `order`: it is null when the goal
has no incomplete milestone, and equals any incomplete milestone of the
goal that has strictly the smallest `order` among them. -/
theorem create_task_milestone_assignment
    (db : DB) (gid : Nat) (tt td : String) (now : Nat)
    (hg : (db.goals.find? (fun g => g.id == gid)).isSome = true) :
    ((create_task db gid tt td now).1 =
       .ok ⟨db.next_task_id, tt, td, VerificationType.text,
            verificationContent tt td,
            (currentMilestone db gid).map (fun m => m.id)⟩) ∧
    ((create_task db gid tt td now).2.tasks =
       db.tasks ++ [⟨db.next_task_id, gid,
                     (currentMilestone db gid).map (fun m => m.id),
                     tt, td, TaskStatus.INCOMPLETE, now, none⟩]) ∧
    ((∀ m ∈ db.milestones, m.goal_id = gid → m.is_complete = true) →
       currentMilestone db gid = none) ∧
    (∀ m0 ∈ db.milestones, m0.goal_id = gid → m0.is_complete = false →
       (∀ m' ∈ db.milestones, m'.goal_id = gid → m'.is_complete = false →
          m' ≠ m0 → m0.order < m'.order) →
       currentMilestone db gid = some m0) := by
  rcases Option.isSome_iff_exists.mp hg with ⟨g, hgg⟩
  refine ⟨by simp [create_task, hgg], by simp [create_task, hgg], ?_, ?_⟩
  · intro hall
    have hfil : db.milestones.filter
        (fun m => m.goal_id == gid && m.is_complete == false) = [] := by
      rw [List.filter_eq_nil_iff]
      intro m hmm
      simp only [Bool.and_eq_true, beq_iff_eq, not_and]
      intro h1
      rw [hall m hmm h1]
      simp
    show ((db.milestones.filter
        (fun m => m.goal_id == gid && m.is_complete == false)).mergeSort
          orderAsc).head? = none
    rw [hfil]
    simp
  · intro m0 hm0 hgoal0 hinc0 hmin
    have hm0L : m0 ∈ db.milestones.filter
        (fun m => m.goal_id == gid && m.is_complete == false) := by
      rw [List.mem_filter]
      refine ⟨hm0, ?_⟩
      simp [hgoal0, hinc0]
    have hsorted : ((db.milestones.filter
        (fun m => m.goal_id == gid && m.is_complete == false)).mergeSort
          orderAsc).Pairwise (fun a b => orderAsc a b = true) :=
      List.sorted_mergeSort orderAsc_trans orderAsc_total _
    have hmem : m0 ∈ (db.milestones.filter
        (fun m => m.goal_id == gid && m.is_complete == false)).mergeSort orderAsc :=
      List.mem_mergeSort.mpr hm0L
    show ((db.milestones.filter
        (fun m => m.goal_id == gid && m.is_complete == false)).mergeSort
          orderAsc).head? = some m0
    cases hhead : ((db.milestones.filter
        (fun m => m.goal_id == gid && m.is_complete == false)).mergeSort
          orderAsc).head? with
    | none =>
      rw [List.head?_eq_none_iff] at hhead
      rw [hhead] at hmem
      cases hmem
    | some h =>
      have hrel := head?_pairwise_rel hsorted hhead m0 hmem
      have hhmem : h ∈ (db.milestones.filter
          (fun m => m.goal_id == gid && m.is_complete == false)).mergeSort orderAsc := by
        cases hl : (db.milestones.filter
            (fun m => m.goal_id == gid && m.is_complete == false)).mergeSort orderAsc with
        | nil => rw [hl] at hhead; cases hhead
        | cons x xs =>
          rw [hl] at hhead
          simp only [List.head?_cons, Option.some.injEq] at hhead
          rw [← hhead]
          exact List.mem_cons_self x xs
      have hhL := List.mem_mergeSort.mp hhmem
      rw [List.mem_filter] at hhL
      obtain ⟨hhdb, hhp⟩ := hhL
      simp only [Bool.and_eq_true, beq_iff_eq] at hhp
      by_cases heq : h = m0
      · rw [← heq]
      · rcases hrel with rfl | hle
        · exact absurd rfl heq
        · have hlt := hmin h hhdb hhp.1 hhp.2 heq
          have hle' : h.order ≤ m0.order := by
            simpa [orderAsc, decide_eq_true_eq] using hle
          omega

/-- Witness for C3 on the sample store: the goal's first milestone is
complete, so the new task lands on the order-2 milestone. -/
theorem create_task_milestone_assignment_witness :
    ((wDB.goals.find? (fun g => g.id == 1)).isSome = true) ∧
    ((create_task wDB 1 "Learn Em" "Practice" 42).1 =
       .ok ⟨10, "Learn Em", "Practice", VerificationType.text,
            verificationContent "Learn Em" "Practice",
            (currentMilestone wDB 1).map (fun m => m.id)⟩) ∧
    currentMilestone wDB 1 = some wMilestone2 := by
  refine ⟨rfl, (create_task_milestone_assignment wDB 1 "Learn Em" "Practice" 42 rfl).1, ?_⟩
  refine (create_task_milestone_assignment wDB 1 "Learn Em" "Practice" 42 rfl).2.2.2
    wMilestone2 (by simp [wDB]) rfl rfl ?_
  intro m' hm' hg' hic' hne'
  simp only [wDB, List.mem_cons, List.not_mem_nil, or_false] at hm'
  rcases hm' with rfl | rfl | rfl
  · simp [wMilestone1] at hic'
  · exact absurd rfl hne'
  · decide

/-- C1 counterexample: with the sample user present, a roadmap that decodes
to the JSON number 5 — which is not a sequence of `{title, description}`
records — does NOT prevent the write: `create_goal` returns a runtime
error (not the roadmap validation error) and the goal, committed before the
roadmap was iterated, persists with zero milestones. -/
theorem create_goal_partial_persist_cex :
    (create_goal wUserDB 1 "Guitar" 60 (some (Json.num 5)) none).1 =
      .error "TypeError: object is not iterable" ∧
    (create_goal wUserDB 1 "Guitar" 60 (some (Json.num 5)) none).2.goals =
      [⟨1, 1, "Guitar", 60, none⟩] ∧
    (create_goal wUserDB 1 "Guitar" 60 (some (Json.num 5)) none).2.milestones = [] :=
  ⟨rfl, rfl, rfl⟩

/-- C1 (amended): a roadmap string that fails JSON decoding prevents any
write — the store is unchanged for every input, and for an existing user
the result is the roadmap validation error.  When the roadmap decodes to a
JSON value that cannot be iterated at all (conjunct three), or iterates to
entries on which the milestone loop fails because some entry is not a
record (conjunct four), the goal — already committed — persists (with no
milestones from the invocation) while an error is returned. -/
theorem create_goal_decode_failure_atomic
    (db : DB) (uid : Nat) (sn : String) (tl : Int) (cn : Option (Option Json)) :
    ((create_goal db uid sn tl none cn).2 = db) ∧
    ((db.users.find? (fun u => u.id == uid)).isSome = true →
       (create_goal db uid sn tl none cn).1 = .error "Invalid roadmap JSON format") ∧
    (∀ (j : Json) (msg : String), pyEnumerate j = .error msg → cn ≠ some none →
       (db.users.find? (fun u => u.id == uid)).isSome = true →
       (create_goal db uid sn tl (some j) cn).1 = .error msg ∧
       (create_goal db uid sn tl (some j) cn).2.goals =
         db.goals ++ [⟨db.next_goal_id, uid, sn, tl,
           match cn with
           | some (some x) => some x
           | _ => none⟩] ∧
       (create_goal db uid sn tl (some j) cn).2.milestones = db.milestones) ∧
    (∀ (j : Json) (entries : List Json) (msg : String),
       pyEnumerate j = .ok entries →
       buildMilestones db.next_goal_id 0 db.next_milestone_id entries = .error msg →
       cn ≠ some none →
       (db.users.find? (fun u => u.id == uid)).isSome = true →
       (create_goal db uid sn tl (some j) cn).1 = .error msg ∧
       (create_goal db uid sn tl (some j) cn).2.goals =
         db.goals ++ [⟨db.next_goal_id, uid, sn, tl,
           match cn with
           | some (some x) => some x
           | _ => none⟩] ∧
       (create_goal db uid sn tl (some j) cn).2.milestones = db.milestones) := by
  refine ⟨?_, ?_, ?_, ?_⟩
  · cases h : db.users.find? (fun u => u.id == uid) with
    | none => simp [create_goal, h]
    | some u => simp [create_goal, h]
  · intro hu
    rcases Option.isSome_iff_exists.mp hu with ⟨u, huu⟩
    simp [create_goal, huu]
  · intro j msg hj hcn hu
    rcases Option.isSome_iff_exists.mp hu with ⟨u, huu⟩
    rcases cn with _ | cn0
    · exact ⟨by simp [create_goal, huu, hj], by simp [create_goal, huu, hj],
             by simp [create_goal, huu, hj]⟩
    · rcases cn0 with _ | j0
      · exact absurd rfl hcn
      · exact ⟨by simp [create_goal, huu, hj], by simp [create_goal, huu, hj],
               by simp [create_goal, huu, hj]⟩
  · intro j entries msg hj hbm hcn hu
    rcases Option.isSome_iff_exists.mp hu with ⟨u, huu⟩
    rcases cn with _ | cn0
    · exact ⟨by simp [create_goal, huu, hj, hbm],
             by simp [create_goal, huu, hj, hbm],
             by simp [create_goal, huu, hj, hbm]⟩
    · rcases cn0 with _ | j0
      · exact absurd rfl hcn
      · exact ⟨by simp [create_goal, huu, hj, hbm],
               by simp [create_goal, huu, hj, hbm],
               by simp [create_goal, huu, hj, hbm]⟩

/-- Witness for C1 (amended) on the sample user store, exercising both the
non-iterable roadmap (a number) and the iterable roadmap whose entry is
not a record (a list holding a number). -/
theorem create_goal_decode_failure_atomic_witness :
    ((wUserDB.users.find? (fun u => u.id == 1)).isSome = true) ∧
    (create_goal wUserDB 1 "Guitar" 60 none none).2 = wUserDB ∧
    (create_goal wUserDB 1 "Guitar" 60 none none).1 =
      .error "Invalid roadmap JSON format" ∧
    pyEnumerate (Json.num 5) = .error "TypeError: object is not iterable" ∧
    (create_goal wUserDB 1 "Guitar" 60 (some (Json.num 5)) none).2.milestones =
      wUserDB.milestones ∧
    pyEnumerate (Json.arr [Json.num 1]) = .ok [Json.num 1] ∧
    buildMilestones 1 0 1 [Json.num 1] =
      .error "AttributeError: object has no attribute get" ∧
    (create_goal wUserDB 1 "Guitar" 60 (some (Json.arr [Json.num 1])) none).1 =
      .error "AttributeError: object has no attribute get" ∧
    (create_goal wUserDB 1 "Guitar" 60
        (some (Json.arr [Json.num 1])) none).2.milestones = wUserDB.milestones := by
  refine ⟨rfl, (create_goal_decode_failure_atomic wUserDB 1 "Guitar" 60 none).1,
         (create_goal_decode_failure_atomic wUserDB 1 "Guitar" 60 none).2.1 rfl, rfl,
         ?_, rfl, rfl, ?_, ?_⟩
  · exact ((create_goal_decode_failure_atomic wUserDB 1 "Guitar" 60 none).2.2.1
      (Json.num 5) "TypeError: object is not iterable" rfl
      (fun h => Option.noConfusion h) rfl).2.2
  · exact ((create_goal_decode_failure_atomic wUserDB 1 "Guitar" 60 none).2.2.2
      (Json.arr [Json.num 1]) [Json.num 1]
      "AttributeError: object has no attribute get" rfl rfl
      (fun h => Option.noConfusion h) rfl).1
  · exact ((create_goal_decode_failure_atomic wUserDB 1 "Guitar" 60 none).2.2.2
      (Json.arr [Json.num 1]) [Json.num 1]
      "AttributeError: object has no attribute get" rfl rfl
      (fun h => Option.noConfusion h) rfl).2.2

/-- On a roadmap whose entries are all objects, the milestone-creation loop
succeeds and produces exactly `specMilestonesFrom`. -/
theorem buildMilestones_ok (gid : Nat) :
    ∀ (entries : List Json) (idx nid : Nat),
      (∀ e ∈ entries, e.isObj = true) →
      buildMilestones gid idx nid entries =
        .ok (specMilestonesFrom gid idx nid entries) := by
  intro entries
  induction entries with
  | nil => intro idx nid _; rfl
  | cons e es ih =>
    intro idx nid hobj
    have he : e.isObj = true := hobj e (List.mem_cons_self e es)
    cases e with
    | obj fields =>
      simp only [buildMilestones, pyGetAttr, specMilestonesFrom]
      rw [ih (idx + 1) (nid + 1) (fun x hx => hobj x (List.mem_cons_of_mem _ hx))]
      simp only [Json.objLookup]
      cases List.lookup "title" fields <;> cases List.lookup "description" fields <;> rfl
    | null => simp [Json.isObj] at he
    | bool b => simp [Json.isObj] at he
    | num n => simp [Json.isObj] at he
    | str s => simp [Json.isObj] at he
    | arr items => simp [Json.isObj] at he

/-- Conversely, whenever the milestone-creation loop succeeds its output is
exactly `specMilestonesFrom` (each entry must have been a dict, or the
`.get` call would have raised). -/
theorem buildMilestones_ok_inv (gid : Nat) :
    ∀ (entries : List Json) (idx nid : Nat) (ms : List Milestone),
      buildMilestones gid idx nid entries = .ok ms →
      ms = specMilestonesFrom gid idx nid entries := by
  intro entries
  induction entries with
  | nil =>
    intro idx nid ms h
    simp only [buildMilestones, Except.ok.injEq] at h
    rw [← h]
    rfl
  | cons e es ih =>
    intro idx nid ms h
    cases e with
    | obj fields =>
      simp only [buildMilestones, pyGetAttr] at h
      cases hrest : buildMilestones gid (idx + 1) (nid + 1) es with
      | error msg => rw [hrest] at h; simp at h
      | ok rest =>
        rw [hrest] at h
        simp only [Except.ok.injEq] at h
        rw [← h, ih (idx + 1) (nid + 1) rest hrest]
        simp only [specMilestonesFrom, Json.objLookup]
        cases List.lookup "title" fields <;>
          cases List.lookup "description" fields <;> rfl
    | null => simp [buildMilestones, pyGetAttr] at h
    | bool b => simp [buildMilestones, pyGetAttr] at h
    | num n => simp [buildMilestones, pyGetAttr] at h
    | str s => simp [buildMilestones, pyGetAttr] at h
    | arr items => simp [buildMilestones, pyGetAttr] at h

/-- Length of `specMilestonesFrom`: one milestone per entry. -/
theorem specMilestonesFrom_length (gid : Nat) :
    ∀ (entries : List Json) (idx nid : Nat),
      (specMilestonesFrom gid idx nid entries).length = entries.length := by
  intro entries
  induction entries with
  | nil => intro idx nid; rfl
  | cons e es ih => intro idx nid; simp [specMilestonesFrom, ih]

/-- Pointwise description of `specMilestonesFrom`: the milestone at
position `i` has id `nid + i`, order `idx + i + 1`, and the defaulted
title/description of entry `i`. -/
theorem specMilestonesFrom_getElem (gid : Nat) :
    ∀ (entries : List Json) (idx nid i : Nat),
      (specMilestonesFrom gid idx nid entries)[i]? =
        entries[i]?.map (fun e =>
          ⟨nid + i, gid,
           (e.objLookup "title").getD
             (Json.str ("Milestone " ++ toString (idx + i + 1))),
           (e.objLookup "description").getD (Json.str ""),
           idx + i + 1, false, none⟩) := by
  intro entries
  induction entries with
  | nil => intro idx nid i; simp [specMilestonesFrom]
  | cons e es ih =>
    intro idx nid i
    cases i with
    | zero => simp [specMilestonesFrom]
    | succ k =>
      simp only [specMilestonesFrom, List.getElem?_cons_succ]
      rw [ih (idx + 1) (nid + 1) k]
      have e1 : nid + 1 + k = nid + (k + 1) := by omega
      have e2 : idx + 1 + k + 1 = idx + (k + 1) + 1 := by omega
      rw [e1, e2]

/-- Every successful `create_goal` call created exactly the milestones of
`specMilestonesFrom` over the entries its decoded roadmap iterated to, and
reported that many milestones. -/
theorem create_goal_success_characterization
    (db : DB) (uid : Nat) (sn : String) (tl : Int) (j : Json)
    (cn : Option (Option Json)) (s : GoalSummary)
    (hs : (create_goal db uid sn tl (some j) cn).1 = .ok s) :
    ∃ entries, pyEnumerate j = .ok entries ∧
      s.milestones_count = entries.length ∧
      (create_goal db uid sn tl (some j) cn).2.milestones =
        db.milestones ++
          specMilestonesFrom db.next_goal_id 0 db.next_milestone_id entries := by
  cases hu : db.users.find? (fun u => u.id == uid) with
  | none => simp [create_goal, hu] at hs
  | some u =>
    rcases cn with _ | cn0
    · simp only [create_goal, hu] at hs ⊢
      split at hs
      · simp at hs
      · rename_i entries heq
        split at hs
        · simp at hs
        · rename_i ms heq2
          injection hs with hs
          have hminv := buildMilestones_ok_inv db.next_goal_id entries 0
            db.next_milestone_id ms heq2
          refine ⟨entries, heq, ?_, ?_⟩
          · rw [← hs]
            show ms.length = entries.length
            rw [hminv, specMilestonesFrom_length]
          · simp only [heq, heq2]
            rw [hminv]
    · rcases cn0 with _ | j0
      · simp [create_goal, hu] at hs
      · simp only [create_goal, hu] at hs ⊢
        split at hs
        · simp at hs
        · rename_i entries heq
          split at hs
          · simp at hs
          · rename_i ms heq2
            injection hs with hs
            have hminv := buildMilestones_ok_inv db.next_goal_id entries 0
              db.next_milestone_id ms heq2
            refine ⟨entries, heq, ?_, ?_⟩
            · rw [← hs]
              show ms.length = entries.length
              rw [hminv, specMilestonesFrom_length]
            · simp only [heq, heq2]
              rw [hminv]

/-- C2: a successful `create_goal` whose decoded roadmap is a list of `N`
objects creates exactly `N` milestones, appended in input order: the new
milestone at offset `i` has order `i + 1`, the entry's title (defaulting
to `"Milestone {i+1}"` when absent) and its description (defaulting to the
empty string); the returned milestone count equals `N`.  Moreover EVERY
successful call (whatever the decoded roadmap was) created exactly the
milestones of `specMilestonesFrom` over the iterated entries and reported
their number. -/
theorem create_goal_roadmap_milestones
    (db : DB) (uid : Nat) (sn : String) (tl : Int) (entries : List Json)
    (cn : Option (Option Json))
    (hu : (db.users.find? (fun u => u.id == uid)).isSome = true)
    (hcn : cn ≠ some none)
    (hobj : ∀ e ∈ entries, e.isObj = true) :
    (create_goal db uid sn tl (some (Json.arr entries)) cn).1 =
      .ok ⟨db.next_goal_id, sn, tl, entries.length⟩ ∧
    (create_goal db uid sn tl (some (Json.arr entries)) cn).2.milestones =
      db.milestones ++
        specMilestonesFrom db.next_goal_id 0 db.next_milestone_id entries ∧
    (∀ i : Nat,
      ((create_goal db uid sn tl (some (Json.arr entries)) cn).2.milestones.drop
          db.milestones.length)[i]? =
        entries[i]?.map (fun e =>
          ⟨db.next_milestone_id + i, db.next_goal_id,
           (e.objLookup "title").getD (Json.str ("Milestone " ++ toString (i + 1))),
           (e.objLookup "description").getD (Json.str ""),
           i + 1, false, none⟩)) ∧
    (∀ (j : Json) (s : GoalSummary),
       (create_goal db uid sn tl (some j) cn).1 = .ok s →
       ∃ es2, pyEnumerate j = .ok es2 ∧
         s.milestones_count = es2.length ∧
         (create_goal db uid sn tl (some j) cn).2.milestones =
           db.milestones ++
             specMilestonesFrom db.next_goal_id 0 db.next_milestone_id es2) := by
  rcases Option.isSome_iff_exists.mp hu with ⟨u, huu⟩
  have hb := buildMilestones_ok db.next_goal_id entries 0 db.next_milestone_id hobj
  have hlen := specMilestonesFrom_length db.next_goal_id entries 0 db.next_milestone_id
  have key : (create_goal db uid sn tl (some (Json.arr entries)) cn).1 =
        .ok ⟨db.next_goal_id, sn, tl, entries.length⟩ ∧
      (create_goal db uid sn tl (some (Json.arr entries)) cn).2.milestones =
        db.milestones ++
          specMilestonesFrom db.next_goal_id 0 db.next_milestone_id entries := by
    rcases cn with _ | cn0
    · constructor <;> simp [create_goal, huu, pyEnumerate, hb, hlen]
    · rcases cn0 with _ | j0
      · exact absurd rfl hcn
      · constructor <;> simp [create_goal, huu, pyEnumerate, hb, hlen]
  refine ⟨key.1, key.2, ?_,
    fun j s hs => create_goal_success_characterization db uid sn tl j cn s hs⟩
  intro i
  rw [key.2, List.drop_left]
  simpa using specMilestonesFrom_getElem db.next_goal_id entries 0 db.next_milestone_id i

/-- Witness for C2: a two-entry roadmap (one entry with a title, one empty
object) yields a goal with exactly 2 milestones reported. -/
theorem create_goal_roadmap_milestones_witness :
    ((wUserDB.users.find? (fun u => u.id == 1)).isSome = true) ∧
    ((none : Option (Option Json)) ≠ some none) ∧
    (∀ e ∈ [Json.obj [("title", Json.str "Chords")], Json.obj []], e.isObj = true) ∧
    (create_goal wUserDB 1 "Guitar" 60
        (some (Json.arr [Json.obj [("title", Json.str "Chords")], Json.obj []]))
        none).1 =
      .ok ⟨1, "Guitar", 60, 2⟩ := by
  have hobj : ∀ e ∈ [Json.obj [("title", Json.str "Chords")], Json.obj []],
      e.isObj = true := by
    intro e he
    rcases List.mem_cons.mp he with rfl | he2
    · rfl
    · rcases List.mem_singleton.mp he2 with rfl
      rfl
  refine ⟨rfl, fun h => Option.noConfusion h, hobj, ?_⟩
  exact (create_goal_roadmap_milestones wUserDB 1 "Guitar" 60
    [Json.obj [("title", Json.str "Chords")], Json.obj []] none rfl
    (fun h => Option.noConfusion h) hobj).1

/-- C6: `get_context` never changes the store; on an existing goal it
succeeds even with zero tasks and zero milestones (empty lists, not an
error), and when the owning user cannot be resolved it returns
`learning_style = null` rather than failing. -/
theorem get_context_pure_and_total (db : DB) (gid : Nat) :
    ((get_context db gid).2 = db) ∧
    (∀ goal, db.goals.find? (fun g => g.id == gid) = some goal →
       ∃ snap, (get_context db gid).1 = .ok snap ∧
         (db.tasks.filter (fun t => t.goal_id == gid) = [] →
            snap.last_completed_tasks = [] ∧ snap.current_incomplete_tasks = []) ∧
         (db.milestones.filter (fun m => m.goal_id == gid) = [] →
            snap.roadmap = []) ∧
         (db.users.find? (fun u => u.id == goal.user_id) = none →
            snap.learning_style = none)) := by
  constructor
  · cases h : db.goals.find? (fun g => g.id == gid) with
    | none => simp [get_context, h]
    | some goal =>
      cases hU : db.users.find? (fun u => u.id == goal.user_id) with
      | none => simp [get_context, h, hU]
      | some u => simp [get_context, h, hU]
  · intro goal hgg
    cases hU : db.users.find? (fun u => u.id == goal.user_id) with
    | none =>
      refine ⟨⟨goal.id, goal.skill_name, none,
        (((db.tasks.filter (fun t => t.goal_id == gid &&
            t.status == TaskStatus.COMPLETE)).mergeSort completedDesc).take 5).map
          taskView,
        ((db.tasks.filter (fun t => t.goal_id == gid &&
            (t.status == TaskStatus.INCOMPLETE ||
             t.status == TaskStatus.IN_PROGRESS))).mergeSort createdAsc).map
          taskView,
        ((db.milestones.filter (fun m => m.goal_id == gid)).mergeSort
          orderAsc).map milestoneView,
        goal.coach_notes⟩, by simp [get_context, hgg, hU], ?_, ?_, fun _ => rfl⟩
      · intro hT
        have hc : db.tasks.filter (fun t => t.goal_id == gid &&
            t.status == TaskStatus.COMPLETE) = [] := by
          rw [List.filter_eq_nil_iff] at hT ⊢
          intro t ht
          have := hT t ht
          simp only [Bool.and_eq_true, not_and]
          intro hgoal
          exact absurd hgoal this
        have hi : db.tasks.filter (fun t => t.goal_id == gid &&
            (t.status == TaskStatus.INCOMPLETE ||
             t.status == TaskStatus.IN_PROGRESS)) = [] := by
          rw [List.filter_eq_nil_iff] at hT ⊢
          intro t ht
          have := hT t ht
          simp only [Bool.and_eq_true, not_and]
          intro hgoal
          exact absurd hgoal this
        constructor
        · show (((db.tasks.filter (fun t => t.goal_id == gid &&
              t.status == TaskStatus.COMPLETE)).mergeSort completedDesc).take 5).map
            taskView = []
          rw [hc]
          simp
        · show ((db.tasks.filter (fun t => t.goal_id == gid &&
              (t.status == TaskStatus.INCOMPLETE ||
               t.status == TaskStatus.IN_PROGRESS))).mergeSort createdAsc).map
            taskView = []
          rw [hi]
          simp
      · intro hM
        show ((db.milestones.filter (fun m => m.goal_id == gid)).mergeSort
          orderAsc).map milestoneView = []
        rw [hM]
        simp
    | some u =>
      refine ⟨⟨goal.id, goal.skill_name, u.learning_style,
        (((db.tasks.filter (fun t => t.goal_id == gid &&
            t.status == TaskStatus.COMPLETE)).mergeSort completedDesc).take 5).map
          taskView,
        ((db.tasks.filter (fun t => t.goal_id == gid &&
            (t.status == TaskStatus.INCOMPLETE ||
             t.status == TaskStatus.IN_PROGRESS))).mergeSort createdAsc).map
          taskView,
        ((db.milestones.filter (fun m => m.goal_id == gid)).mergeSort
          orderAsc).map milestoneView,
        goal.coach_notes⟩, by simp [get_context, hgg, hU], ?_, ?_, ?_⟩
      · intro hT
        have hc : db.tasks.filter (fun t => t.goal_id == gid &&
            t.status == TaskStatus.COMPLETE) = [] := by
          rw [List.filter_eq_nil_iff] at hT ⊢
          intro t ht
          have := hT t ht
          simp only [Bool.and_eq_true, not_and]
          intro hgoal
          exact absurd hgoal this
        have hi : db.tasks.filter (fun t => t.goal_id == gid &&
            (t.status == TaskStatus.INCOMPLETE ||
             t.status == TaskStatus.IN_PROGRESS)) = [] := by
          rw [List.filter_eq_nil_iff] at hT ⊢
          intro t ht
          have := hT t ht
          simp only [Bool.and_eq_true, not_and]
          intro hgoal
          exact absurd hgoal this
        constructor
        · show (((db.tasks.filter (fun t => t.goal_id == gid &&
              t.status == TaskStatus.COMPLETE)).mergeSort completedDesc).take 5).map
            taskView = []
          rw [hc]
          simp
        · show ((db.tasks.filter (fun t => t.goal_id == gid &&
              (t.status == TaskStatus.INCOMPLETE ||
               t.status == TaskStatus.IN_PROGRESS))).mergeSort createdAsc).map
            taskView = []
          rw [hi]
          simp
      · intro hM
        show ((db.milestones.filter (fun m => m.goal_id == gid)).mergeSort
          orderAsc).map milestoneView = []
        rw [hM]
        simp
      · intro h
        cases h

/-- Witness for C6: on the sample store the call leaves the store as is. -/
theorem get_context_pure_and_total_witness :
    ((get_context wDB 1).2 = wDB) ∧
    (wDB.goals.find? (fun g => g.id == 1) = some wGoal) ∧
    (∃ snap, (get_context wDB 1).1 = .ok snap ∧
       (wDB.tasks.filter (fun t => t.goal_id == 1) = [] →
          snap.last_completed_tasks = [] ∧ snap.current_incomplete_tasks = []) ∧
       (wDB.milestones.filter (fun m => m.goal_id == 1) = [] →
          snap.roadmap = []) ∧
       (wDB.users.find? (fun u => u.id == wGoal.user_id) = none →
          snap.learning_style = none)) :=
  ⟨(get_context_pure_and_total wDB 1).1, rfl,
   (get_context_pure_and_total wDB 1).2 wGoal rfl⟩

/-- C9: `update_goal` and `update_milestone` have partial-update semantics:
on an existing entity every supplied field is overwritten and every omitted
field keeps its prior value (it is neither defaulted nor cleared). -/
theorem partial_update_semantics
    (db : DB) (gid : Nat) (sn : Option String) (tl : Option Int)
    (cn : Option (Option Json)) (g : Goal)
    (hg : db.goals.find? (fun x => x.id == gid) = some g)
    (hcn : cn ≠ some none)
    (mid : Nat) (mt md : Option String) (mc : Option Bool) (now : Nat)
    (m : Milestone)
    (hm : db.milestones.find? (fun x => x.id == mid) = some m) :
    (∀ x ∈ (update_goal db gid sn tl cn).2.goals, x.id = gid →
       x.skill_name = sn.getD g.skill_name ∧
       x.timeline = tl.getD g.timeline ∧
       x.coach_notes = (match cn with
         | some (some j) => some j
         | _ => g.coach_notes) ∧
       x.user_id = g.user_id) ∧
    (∀ x ∈ (update_milestone db mid mt md mc now).2.milestones, x.id = mid →
       x.title = (match mt with
         | some t => Json.str t
         | none => m.title) ∧
       x.description = (match md with
         | some d => Json.str d
         | none => m.description) ∧
       x.is_complete = (match mc with
         | some b => b
         | none => m.is_complete) ∧
       x.order = m.order ∧ x.goal_id = m.goal_id) := by
  constructor
  · intro x hx hxid
    rcases cn with _ | cn0
    · simp only [update_goal, hg] at hx
      rcases List.mem_map.mp hx with ⟨y, _, hxy⟩
      by_cases hid : (y.id == gid) = true
      · rw [if_pos hid] at hxy
        subst hxy
        rcases sn with _ | s <;> rcases tl with _ | t <;> exact ⟨rfl, rfl, rfl, rfl⟩
      · rw [if_neg hid] at hxy
        subst hxy
        exact absurd (beq_iff_eq.mpr hxid) hid
    · rcases cn0 with _ | j0
      · exact absurd rfl hcn
      · simp only [update_goal, hg] at hx
        rcases List.mem_map.mp hx with ⟨y, _, hxy⟩
        by_cases hid : (y.id == gid) = true
        · rw [if_pos hid] at hxy
          subst hxy
          rcases sn with _ | s <;> rcases tl with _ | t <;> exact ⟨rfl, rfl, rfl, rfl⟩
        · rw [if_neg hid] at hxy
          subst hxy
          exact absurd (beq_iff_eq.mpr hxid) hid
  · intro x hx hxid
    simp only [update_milestone, hm] at hx
    rcases List.mem_map.mp hx with ⟨y, _, hxy⟩
    by_cases hid : (y.id == mid) = true
    · rw [if_pos hid] at hxy
      subst hxy
      rcases mt with _ | t <;> rcases md with _ | d <;> rcases mc with _ | b <;>
        exact ⟨rfl, rfl, rfl, rfl, rfl⟩
    · rw [if_neg hid] at hxy
      subst hxy
      exact absurd (beq_iff_eq.mpr hxid) hid

/-- Witness for C9: updating only the skill name of the sample goal leaves
its timeline and coach notes untouched. -/
theorem partial_update_semantics_witness :
    (wDB.goals.find? (fun x => x.id == 1) = some wGoal) ∧
    (wDB.milestones.find? (fun x => x.id == 1) = some wMilestone1) ∧
    ((none : Option (Option Json)) ≠ some none) ∧
    (∀ x ∈ (update_goal wDB 1 (some "Piano") none none).2.goals, x.id = 1 →
       x.skill_name = (some "Piano").getD wGoal.skill_name ∧
       x.timeline = (none : Option Int).getD wGoal.timeline ∧
       x.coach_notes = (match (none : Option (Option Json)) with
         | some (some j) => some j
         | _ => wGoal.coach_notes) ∧
       x.user_id = wGoal.user_id) :=
  ⟨rfl, rfl, fun h => Option.noConfusion h,
   (partial_update_semantics wDB 1 (some "Piano") none none wGoal rfl
     (fun h => Option.noConfusion h) 1 none (some "newdesc") none 0
     wMilestone1 rfl).1⟩

/-- Transitivity of `completedDesc`. -/
theorem completedDesc_trans : ∀ a b c : Task,
    completedDesc a b = true → completedDesc b c = true → completedDesc a c = true := by
  intro a b c h1 h2
  simp only [completedDesc, decide_eq_true_eq] at *
  omega

/-- Totality of `completedDesc`. -/
theorem completedDesc_total : ∀ a b : Task,
    (completedDesc a b || completedDesc b a) = true := by
  intro a b
  simp only [completedDesc, Bool.or_eq_true, decide_eq_true_eq]
  omega

/-- Transitivity of `createdAsc`. -/
theorem createdAsc_trans : ∀ a b c : Task,
    createdAsc a b = true → createdAsc b c = true → createdAsc a c = true := by
  intro a b c h1 h2
  simp only [createdAsc, decide_eq_true_eq] at *
  omega

/-- Totality of `createdAsc`. -/
theorem createdAsc_total : ∀ a b : Task,
    (createdAsc a b || createdAsc b a) = true := by
  intro a b
  simp only [createdAsc, Bool.or_eq_true, decide_eq_true_eq]
  omega

/-- C5: `get_context` on an existing goal returns (b) at most 5 completed
tasks — exactly `min 5` of the goal's COMPLETE-task count — listed newest
first by `completed_at`, such that no returned one is older than any
omitted completed task; (c) ALL of the goal's INCOMPLETE / IN_PROGRESS
tasks ordered by `created_at` ascending; and (d) the goal's full milestone
roadmap ordered by `order` ascending. -/
theorem get_context_aggregation (db : DB) (gid : Nat) (goal : Goal)
    (hg : db.goals.find? (fun g => g.id == gid) = some goal) :
    ∃ snap, (get_context db gid).1 = .ok snap ∧
      (∃ cs : List Task,
         snap.last_completed_tasks = (cs.take 5).map taskView ∧
         cs.Pairwise (fun a b => tsVal b.completed_at ≤ tsVal a.completed_at) ∧
         (∀ t, t ∈ cs ↔ (t ∈ db.tasks ∧ t.goal_id = gid ∧
            t.status = TaskStatus.COMPLETE))) ∧
      snap.last_completed_tasks.length =
        min 5 (db.tasks.filter (fun t => t.goal_id == gid &&
          t.status == TaskStatus.COMPLETE)).length ∧
      snap.last_completed_tasks.Pairwise
        (fun a b => tsVal b.completed_at ≤ tsVal a.completed_at) ∧
      (∀ t ∈ db.tasks, t.goal_id = gid → t.status = TaskStatus.COMPLETE →
         taskView t ∉ snap.last_completed_tasks →
         ∀ v ∈ snap.last_completed_tasks,
           tsVal t.completed_at ≤ tsVal v.completed_at) ∧
      (∃ ts : List Task,
         snap.current_incomplete_tasks = ts.map taskView ∧
         ts.Pairwise (fun a b => a.created_at ≤ b.created_at) ∧
         (∀ t, t ∈ ts ↔ (t ∈ db.tasks ∧ t.goal_id = gid ∧
            (t.status = TaskStatus.INCOMPLETE ∨
             t.status = TaskStatus.IN_PROGRESS)))) ∧
      (∃ rs : List Milestone,
         snap.roadmap = rs.map milestoneView ∧
         rs.Pairwise (fun a b => a.order ≤ b.order) ∧
         (∀ m, m ∈ rs ↔ (m ∈ db.milestones ∧ m.goal_id = gid))) := by
  have hpairC : ((db.tasks.filter (fun t => t.goal_id == gid &&
      t.status == TaskStatus.COMPLETE)).mergeSort completedDesc).Pairwise
        (fun a b => tsVal b.completed_at ≤ tsVal a.completed_at) :=
    (List.sorted_mergeSort completedDesc_trans completedDesc_total _).imp
      (fun h => by simpa [completedDesc, decide_eq_true_eq] using h)
  have hmemC : ∀ t, t ∈ (db.tasks.filter (fun t => t.goal_id == gid &&
      t.status == TaskStatus.COMPLETE)).mergeSort completedDesc ↔
        (t ∈ db.tasks ∧ t.goal_id = gid ∧ t.status = TaskStatus.COMPLETE) := by
    intro t
    rw [List.mem_mergeSort, List.mem_filter]
    simp [Bool.and_eq_true, and_assoc]
  have hpairI : ((db.tasks.filter (fun t => t.goal_id == gid &&
      (t.status == TaskStatus.INCOMPLETE ||
       t.status == TaskStatus.IN_PROGRESS))).mergeSort createdAsc).Pairwise
        (fun a b => a.created_at ≤ b.created_at) :=
    (List.sorted_mergeSort createdAsc_trans createdAsc_total _).imp
      (fun h => by simpa [createdAsc, decide_eq_true_eq] using h)
  have hmemI : ∀ t, t ∈ (db.tasks.filter (fun t => t.goal_id == gid &&
      (t.status == TaskStatus.INCOMPLETE ||
       t.status == TaskStatus.IN_PROGRESS))).mergeSort createdAsc ↔
        (t ∈ db.tasks ∧ t.goal_id = gid ∧
         (t.status = TaskStatus.INCOMPLETE ∨
          t.status = TaskStatus.IN_PROGRESS)) := by
    intro t
    rw [List.mem_mergeSort, List.mem_filter]
    simp [Bool.and_eq_true, Bool.or_eq_true, and_assoc]
  have hpairM : ((db.milestones.filter
      (fun m => m.goal_id == gid)).mergeSort orderAsc).Pairwise
        (fun a b => a.order ≤ b.order) :=
    (List.sorted_mergeSort orderAsc_trans orderAsc_total _).imp
      (fun h => by simpa [orderAsc, decide_eq_true_eq] using h)
  have hmemM : ∀ m, m ∈ (db.milestones.filter
      (fun m => m.goal_id == gid)).mergeSort orderAsc ↔
        (m ∈ db.milestones ∧ m.goal_id = gid) := by
    intro m
    rw [List.mem_mergeSort, List.mem_filter]
    simp
  have hlenC : ((((db.tasks.filter (fun t => t.goal_id == gid &&
      t.status == TaskStatus.COMPLETE)).mergeSort completedDesc).take 5).map
        taskView).length =
        min 5 (db.tasks.filter (fun t => t.goal_id == gid &&
          t.status == TaskStatus.COMPLETE)).length := by
    rw [List.length_map, List.length_take, List.length_mergeSort]
  have hpairT : ((((db.tasks.filter (fun t => t.goal_id == gid &&
      t.status == TaskStatus.COMPLETE)).mergeSort completedDesc).take 5).map
        taskView).Pairwise
          (fun a b => tsVal b.completed_at ≤ tsVal a.completed_at) := by
    rw [List.pairwise_map]
    exact hpairC.sublist (List.take_sublist 5 _)
  have hdom : ∀ t ∈ db.tasks, t.goal_id = gid → t.status = TaskStatus.COMPLETE →
      taskView t ∉ (((db.tasks.filter (fun t => t.goal_id == gid &&
        t.status == TaskStatus.COMPLETE)).mergeSort completedDesc).take 5).map
          taskView →
      ∀ v ∈ (((db.tasks.filter (fun t => t.goal_id == gid &&
        t.status == TaskStatus.COMPLETE)).mergeSort completedDesc).take 5).map
          taskView,
        tsVal t.completed_at ≤ tsVal v.completed_at := by
    intro t ht hgl hst hnot v hv
    have htc : t ∈ (db.tasks.filter (fun t => t.goal_id == gid &&
        t.status == TaskStatus.COMPLETE)).mergeSort completedDesc :=
      (hmemC t).mpr ⟨ht, hgl, hst⟩
    have hsplit : ((db.tasks.filter (fun t => t.goal_id == gid &&
        t.status == TaskStatus.COMPLETE)).mergeSort completedDesc).take 5 ++
        ((db.tasks.filter (fun t => t.goal_id == gid &&
          t.status == TaskStatus.COMPLETE)).mergeSort completedDesc).drop 5 =
        (db.tasks.filter (fun t => t.goal_id == gid &&
          t.status == TaskStatus.COMPLETE)).mergeSort completedDesc :=
      List.take_append_drop 5 _
    have hpair2 : (((db.tasks.filter (fun t => t.goal_id == gid &&
        t.status == TaskStatus.COMPLETE)).mergeSort completedDesc).take 5 ++
        ((db.tasks.filter (fun t => t.goal_id == gid &&
          t.status == TaskStatus.COMPLETE)).mergeSort completedDesc).drop 5).Pairwise
          (fun a b => tsVal b.completed_at ≤ tsVal a.completed_at) := by
      rw [hsplit]
      exact hpairC
    have htsplit : t ∈ ((db.tasks.filter (fun t => t.goal_id == gid &&
        t.status == TaskStatus.COMPLETE)).mergeSort completedDesc).take 5 ++
        ((db.tasks.filter (fun t => t.goal_id == gid &&
          t.status == TaskStatus.COMPLETE)).mergeSort completedDesc).drop 5 := by
      rw [hsplit]
      exact htc
    rcases List.mem_append.mp htsplit with h5 | hd
    · exact absurd (List.mem_map_of_mem taskView h5) hnot
    · rcases List.mem_map.mp hv with ⟨a, ha5, hav⟩
      have hrel := (List.pairwise_append.mp hpair2).2.2 a ha5 t hd
      rw [← hav]
      exact hrel
  cases hU : db.users.find? (fun u => u.id == goal.user_id) with
  | none =>
    refine ⟨⟨goal.id, goal.skill_name, none,
      (((db.tasks.filter (fun t => t.goal_id == gid &&
          t.status == TaskStatus.COMPLETE)).mergeSort completedDesc).take 5).map
        taskView,
      ((db.tasks.filter (fun t => t.goal_id == gid &&
          (t.status == TaskStatus.INCOMPLETE ||
           t.status == TaskStatus.IN_PROGRESS))).mergeSort createdAsc).map
        taskView,
      ((db.milestones.filter (fun m => m.goal_id == gid)).mergeSort
        orderAsc).map milestoneView,
      goal.coach_notes⟩, by simp [get_context, hg, hU],
      ⟨_, rfl, hpairC, hmemC⟩, hlenC, hpairT, hdom,
      ⟨_, rfl, hpairI, hmemI⟩, ⟨_, rfl, hpairM, hmemM⟩⟩
  | some u =>
    refine ⟨⟨goal.id, goal.skill_name, u.learning_style,
      (((db.tasks.filter (fun t => t.goal_id == gid &&
          t.status == TaskStatus.COMPLETE)).mergeSort completedDesc).take 5).map
        taskView,
      ((db.tasks.filter (fun t => t.goal_id == gid &&
          (t.status == TaskStatus.INCOMPLETE ||
           t.status == TaskStatus.IN_PROGRESS))).mergeSort createdAsc).map
        taskView,
      ((db.milestones.filter (fun m => m.goal_id == gid)).mergeSort
        orderAsc).map milestoneView,
      goal.coach_notes⟩, by simp [get_context, hg, hU],
      ⟨_, rfl, hpairC, hmemC⟩, hlenC, hpairT, hdom,
      ⟨_, rfl, hpairI, hmemI⟩, ⟨_, rfl, hpairM, hmemM⟩⟩

/-- Witness for C5: the sample store has seven completed tasks for the
goal, so the snapshot keeps exactly five of them, newest first. -/
theorem get_context_aggregation_witness :
    (wDB.goals.find? (fun g => g.id == 1) = some wGoal) ∧
    (∃ snap, (get_context wDB 1).1 = .ok snap ∧
      (∃ cs : List Task,
         snap.last_completed_tasks = (cs.take 5).map taskView ∧
         cs.Pairwise (fun a b => tsVal b.completed_at ≤ tsVal a.completed_at) ∧
         (∀ t, t ∈ cs ↔ (t ∈ wDB.tasks ∧ t.goal_id = 1 ∧
            t.status = TaskStatus.COMPLETE))) ∧
      snap.last_completed_tasks.length =
        min 5 (wDB.tasks.filter (fun t => t.goal_id == 1 &&
          t.status == TaskStatus.COMPLETE)).length ∧
      snap.last_completed_tasks.Pairwise
        (fun a b => tsVal b.completed_at ≤ tsVal a.completed_at) ∧
      (∀ t ∈ wDB.tasks, t.goal_id = 1 → t.status = TaskStatus.COMPLETE →
         taskView t ∉ snap.last_completed_tasks →
         ∀ v ∈ snap.last_completed_tasks,
           tsVal t.completed_at ≤ tsVal v.completed_at) ∧
      (∃ ts : List Task,
         snap.current_incomplete_tasks = ts.map taskView ∧
         ts.Pairwise (fun a b => a.created_at ≤ b.created_at) ∧
         (∀ t, t ∈ ts ↔ (t ∈ wDB.tasks ∧ t.goal_id = 1 ∧
            (t.status = TaskStatus.INCOMPLETE ∨
             t.status = TaskStatus.IN_PROGRESS)))) ∧
      (∃ rs : List Milestone,
         snap.roadmap = rs.map milestoneView ∧
         rs.Pairwise (fun a b => a.order ≤ b.order) ∧
         (∀ m, m ∈ rs ↔ (m ∈ wDB.milestones ∧ m.goal_id = 1)))) :=
  ⟨rfl, get_context_aggregation wDB 1 wGoal rfl⟩

end SkillServer
